import Mathlib

/-!
# Verification of the `@yzy98/auth` session-authentication core

Shallow embedding of the repository's Credential & Session Authority
(`src/auth.ts`), its persisted schema (`src/db/schema.ts`, tables `user` and
`session`), its result envelope (`src/types.ts`) and the Next.js transport
adapter's `handleGetSession` (`src/integrations/next-js.ts`, the current
revision, the one importing `POST_ACTION`/`GET_ACTION` from `src/constants.ts`).

Modelling decisions, each noted at its definition:
* The persistent store (an external relational collaborator reached through
  drizzle) is a pair of row lists plus a fresh-id counter; `nanoid` identifier
  generation is modelled by that counter, which yields opaque never-reused
  identifiers exactly as the spec requires of them.
* Timestamps (`Date`) are integers (milliseconds); `Date.now()` becomes an
  explicit `now : Int` argument to each operation.
* The cookie transport (`next/headers` `cookies()`, holding the single cookie
  `yzy98-auth.session_id`) is an `Option Nat` component of the state.
* bcrypt (`hash`/`compare` from `bcryptjs`) is an external collaborator, not
  code of this repository; it is modelled as an injective tagging function with
  its matching verifier.
* Each operation also appends to a query log, one entry per `await db...` call
  the source issues, so that "no query is issued" is expressible.
* A thrown `Error` is identified by its message string, exactly the strings
  thrown in `src/auth.ts`; the `catch` at each operation's edge turns it into
  the failure arm of the result envelope.
-/

/-- Row of the `user` table (`src/db/schema.ts`): id (primary key, generated),
nullable name, unique email, password hash, created/updated timestamps. -/
structure User where
  id : Nat
  name : Option String
  email : String
  password : String
  createdAt : Int
  updatedAt : Int
deriving Repr, DecidableEq

/-- Row of the `session` table (`src/db/schema.ts`): id (primary key,
generated), expiration timestamp, created/updated timestamps, owning user id
(foreign key to `user.id`). -/
structure Session where
  id : Nat
  expiresAt : Int
  createdAt : Int
  updatedAt : Int
  userId : Nat
deriving Repr, DecidableEq

/-- One store query, in the order the source awaits them; instrumentation used
to state frame conditions such as "no query is issued". -/
inductive DbOp where
  | selectUserByEmail (email : String)
  | insertUser
  | insertSession
  | selectSessionUserJoin (sid : Nat)
  | deleteSession (sid : Nat)
deriving Repr, DecidableEq

/-- The persistent store: the two tables plus the fresh-identifier counter
modelling `nanoid` generation (identifiers `< nextId` have been handed out). -/
structure Store where
  users : List User
  sessions : List Session
  nextId : Nat
deriving Repr, DecidableEq

/-- The world an Authority operation acts on: the store, the cookie transport
(the value of the `yzy98-auth.session_id` cookie, if set), and the query log. -/
structure AuthState where
  store : Store
  cookie : Option Nat
  log : List DbOp
deriving Repr, DecidableEq

/-- `PickedUser` (`src/types.ts`): the public projection of a user — id, name,
email. It has no password field; this is the only user shape any success
payload carries. -/
structure PickedUser where
  id : Nat
  name : Option String
  email : String
deriving Repr, DecidableEq

/-- The result envelope (`src/types.ts` `Result<T,E>`): the source constructs
literally `\x7bdata, error: null\x7d` or `\x7bdata: null, error\x7d`, so it is
embedded as a pair of options, over which mutual exclusion is a theorem rather
than a construction. Errors are carried as their message strings. -/
structure Envelope (α : Type) where
  data : Option α
  error : Option String
deriving Repr, DecidableEq

/-- Success arm: `\x7bdata, error: null\x7d`. -/
def Envelope.ok {α : Type} (d : α) : Envelope α := ⟨some d, none⟩

/-- Failure arm: `\x7bdata: null, error\x7d`. -/
def Envelope.fail {α : Type} (msg : String) : Envelope α := ⟨none, some msg⟩

/-- `SignUpParams` (`src/types.ts`). -/
structure SignUpParams where
  name : Option String
  email : String
  password : String
deriving Repr, DecidableEq

/-- `SignInParams` (`src/types.ts`). -/
structure SignInParams where
  email : String
  password : String
deriving Repr, DecidableEq

/-- `GetSessionData` (`src/types.ts`): the success payload of `getSession` —
the picked user and the FULL session row (`session: sessionSchema` selects
every column). -/
structure GetSessionData where
  user : PickedUser
  session : Session
deriving Repr, DecidableEq

/-- `SignActionData` (`src/types.ts`): success payload of
signUp/signIn/signOut. -/
structure SignActionData where
  user : PickedUser
deriving Repr, DecidableEq

/-- Model of the external bcrypt collaborator's `hash` (out of scope per the
spec: "an opaque one-way function with a verify counterpart"): an injective
tagging. No claim depends on more than verify∘hash behaviour. -/
def hashPassword (password : String) : String :=
  "bcrypt$" ++ password

/-- Model of bcrypt `compare`: succeeds exactly on the password that produced
the hash. -/
def verifyPassword (password hashed : String) : Bool :=
  hashPassword password == hashed

/-- `1000 * 60 * 60 * 24` — the fixed 24-hour session TTL in milliseconds
(`src/auth.ts`, "Expire in 1 day"). -/
def sessionTtlMs : Int := 1000 * 60 * 60 * 24

/-- `db.select().from(user).where(eq(user.email, email))`, first row. -/
def findUserByEmail (users : List User) (email : String) : Option User :=
  users.find? (fun u => u.email == email)

/-- Session lookup by primary key. -/
def findSessionById (sessions : List Session) (sid : Nat) : Option Session :=
  sessions.find? (fun s => s.id == sid)

/-- User lookup by primary key (the `innerJoin` side). -/
def findUserById (users : List User) (uid : Nat) : Option User :=
  users.find? (fun u => u.id == uid)

/-- The `innerJoin(user, eq(session.userId, user.id)).where(eq(session.id,
sid))` of signOut/getSession: the joined row, if any. -/
def joinSessionUser (st : Store) (sid : Nat) : Option (Session × User) :=
  match findSessionById st.sessions sid with
  | none => none
  | some s =>
    match findUserById st.users s.userId with
    | none => none
    | some u => some (s, u)

/-- The public projection taken at every success return site:
`\x7bid, name, email\x7d`. -/
def pickUser (u : User) : PickedUser := ⟨u.id, u.name, u.email⟩

/-- `signUp` (`src/auth.ts` lines 25–91): reject a duplicate email, hash the
password, insert the user, insert a 24h session, set the cookie, return the
picked user; any thrown error is caught and returned as the failure arm. -/
def signUp (now : Int) (p : SignUpParams) (st : AuthState) :
    Envelope SignActionData × AuthState :=
  let logSel := st.log ++ [DbOp.selectUserByEmail p.email]
  match findUserByEmail st.store.users p.email with
  | some _ =>
      (Envelope.fail "User already exists", ⟨st.store, st.cookie, logSel⟩)
  | none =>
      let hashed := hashPassword p.password
      let uid := st.store.nextId
      let createdUser : User := ⟨uid, p.name, p.email, hashed, now, now⟩
      let expiresAt := now + sessionTtlMs
      let sid := st.store.nextId + 1
      let createdSession : Session := ⟨sid, expiresAt, now, now, uid⟩
      let store' : Store :=
        ⟨st.store.users ++ [createdUser], st.store.sessions ++ [createdSession],
          st.store.nextId + 2⟩
      (Envelope.ok ⟨pickUser createdUser⟩,
        ⟨store', some sid, logSel ++ [DbOp.insertUser, DbOp.insertSession]⟩)

/-- `signIn` (`src/auth.ts` lines 93–157): look the user up by email (absent →
throw "Email is not valid"), verify the password (mismatch → throw "Password is
not valid"), insert a fresh 24h session, set the cookie, return the picked
user. -/
def signIn (now : Int) (p : SignInParams) (st : AuthState) :
    Envelope SignActionData × AuthState :=
  let logSel := st.log ++ [DbOp.selectUserByEmail p.email]
  match findUserByEmail st.store.users p.email with
  | none =>
      (Envelope.fail "Email is not valid", ⟨st.store, st.cookie, logSel⟩)
  | some matchedUser =>
      if verifyPassword p.password matchedUser.password then
        let expiresAt := now + sessionTtlMs
        let sid := st.store.nextId
        let createdSession : Session := ⟨sid, expiresAt, now, now, matchedUser.id⟩
        let store' : Store :=
          ⟨st.store.users, st.store.sessions ++ [createdSession],
            st.store.nextId + 1⟩
        (Envelope.ok ⟨pickUser matchedUser⟩,
          ⟨store', some sid, logSel ++ [DbOp.insertSession]⟩)
      else
        (Envelope.fail "Password is not valid", ⟨st.store, st.cookie, logSel⟩)

/-- `signOut` (`src/auth.ts` lines 159–210): no cookie → throw "Session id is
not valid" before any store access; otherwise join session→user (no row →
throw "User is not exist in database"), delete the session (zero rows → throw
"Session is not exist in database"), clear the cookie, return the picked
user. -/
def signOut (st : AuthState) : Envelope SignActionData × AuthState :=
  match st.cookie with
  | none => (Envelope.fail "Session id is not valid", st)
  | some sid =>
      let logJoin := st.log ++ [DbOp.selectSessionUserJoin sid]
      match joinSessionUser st.store sid with
      | none =>
          (Envelope.fail "User is not exist in database",
            ⟨st.store, st.cookie, logJoin⟩)
      | some (_, u) =>
          let deleted := findSessionById st.store.sessions sid
          let store' : Store :=
            ⟨st.store.users, st.store.sessions.filter (fun x => x.id != sid),
              st.store.nextId⟩
          let logDel := logJoin ++ [DbOp.deleteSession sid]
          match deleted with
          | none =>
              (Envelope.fail "Session is not exist in database",
                ⟨store', st.cookie, logDel⟩)
          | some _ =>
              (Envelope.ok ⟨pickUser u⟩, ⟨store', none, logDel⟩)

/-- `getSession` (`src/auth.ts` lines 212–253): no cookie → throw "Session id
is not exist in cookie"; join session→user (no row → throw "Session is not
exist in database"); if `expiresAt < now` (strict), delete the session, clear
the cookie and throw "Session is expired"; otherwise return the picked user
and the full session row. -/
def getSession (now : Int) (st : AuthState) :
    Envelope GetSessionData × AuthState :=
  match st.cookie with
  | none => (Envelope.fail "Session id is not exist in cookie", st)
  | some sid =>
      let logJoin := st.log ++ [DbOp.selectSessionUserJoin sid]
      match joinSessionUser st.store sid with
      | none =>
          (Envelope.fail "Session is not exist in database",
            ⟨st.store, st.cookie, logJoin⟩)
      | some (s, u) =>
          if s.expiresAt < now then
            let store' : Store :=
              ⟨st.store.users, st.store.sessions.filter (fun x => x.id != sid),
                st.store.nextId⟩
            (Envelope.fail "Session is expired",
              ⟨store', none, logJoin ++ [DbOp.deleteSession sid]⟩)
          else
            (Envelope.ok ⟨pickUser u, s⟩, ⟨st.store, st.cookie, logJoin⟩)

/-- Wire response of the adapter's `handleGetSession`
(`src/integrations/next-js.ts`, current revision): an HTTP status and the
`session` field of the JSON body (`null` encoded as `none`). -/
structure GetSessionResponse where
  status : Nat
  session : Option GetSessionData
deriving Repr, DecidableEq

/-- `handleGetSession` (`src/integrations/next-js.ts`, current revision): call
`auth.getSession()`; if `result.error` respond `\x7bsession: null\x7d` with
status 200, else respond `\x7bsession: result.data\x7d` with status 200. -/
def handleGetSession (now : Int) (st : AuthState) :
    GetSessionResponse × AuthState :=
  let r := getSession now st
  match r.1.error with
  | some _ => (⟨200, none⟩, r.2)
  | none => (⟨200, r.1.data⟩, r.2)

/-- Number of `user` rows holding a given email. -/
def countUsersWithEmail (users : List User) (email : String) : Nat :=
  (users.filter (fun u => u.email == email)).length

/-- The envelope is two-armed: exactly one of the success payload and the
failure description is populated — never both, never neither. -/
def exclusiveEnvelope {α : Type} (e : Envelope α) : Prop :=
  (e.data.isSome = true ∧ e.error = none) ∨
    (e.data = none ∧ e.error.isSome = true)

/-- A registered user for concrete runs: id 0, password hash of "pw". -/
def uAlice : User := ⟨0, none, "a@x.com", hashPassword "pw", 0, 0⟩

/-- A session of `uAlice` expiring at time 100. -/
def sAlice : Session := ⟨1, 100, 0, 0, 0⟩

/-- Concrete state: `uAlice` stored, her session stored, cookie set to it. -/
def stAlice : AuthState := ⟨⟨[uAlice], [sAlice], 2⟩, some 1, []⟩

/-- Concrete state: `uAlice` stored, no session, no cookie. -/
def stNoSession : AuthState := ⟨⟨[uAlice], [], 5⟩, none, []⟩

/-- Same session row as `sAlice` except for its creation timestamp. -/
def sAliceLate : Session := ⟨1, 100, 77, 0, 0⟩

/-- `stAlice` with `sAliceLate` instead of `sAlice`: the two states agree on
everything except a session field outside \x7bidentifier, expiration\x7d. -/
def stAliceLate : AuthState := ⟨⟨[uAlice], [sAliceLate], 2⟩, some 1, []⟩

/-! ## Helper lemmas -/

theorem findSessionById_filter_self (l : List Session) (sid : Nat) :
    findSessionById (l.filter (fun x => x.id != sid)) sid = none := by
  rw [findSessionById, List.find?_eq_none]
  intro x hx
  simp only [List.mem_filter, bne_iff_ne] at hx
  simp [hx.2]

theorem findSessionById_of_bound (l : List Session) (sid : Nat)
    (h : ∀ x ∈ l, x.id < sid) : findSessionById l sid = none := by
  rw [findSessionById, List.find?_eq_none]
  intro x hx
  simp [Nat.ne_of_lt (h x hx)]

theorem filter_email_nil (users : List User) (email : String)
    (h : findUserByEmail users email = none) :
    users.filter (fun u => u.email == email) = [] := by
  rw [List.filter_eq_nil_iff]
  intro a ha
  exact (List.find?_eq_none.mp h) a ha

theorem signUp_result_shape (now : Int) (p : SignUpParams) (st : AuthState) :
    (∃ d, (signUp now p st).1 = Envelope.ok d) ∨
      (∃ m, (signUp now p st).1 = Envelope.fail m) := by
  simp only [signUp]
  split
  · exact Or.inr ⟨_, rfl⟩
  · exact Or.inl ⟨_, rfl⟩

theorem signIn_result_shape (now : Int) (p : SignInParams) (st : AuthState) :
    (∃ d, (signIn now p st).1 = Envelope.ok d) ∨
      (∃ m, (signIn now p st).1 = Envelope.fail m) := by
  simp only [signIn]
  split
  · exact Or.inr ⟨_, rfl⟩
  · split
    · exact Or.inl ⟨_, rfl⟩
    · exact Or.inr ⟨_, rfl⟩

theorem signOut_result_shape (st : AuthState) :
    (∃ d, (signOut st).1 = Envelope.ok d) ∨
      (∃ m, (signOut st).1 = Envelope.fail m) := by
  simp only [signOut]
  split
  · exact Or.inr ⟨_, rfl⟩
  · split
    · exact Or.inr ⟨_, rfl⟩
    · split
      · exact Or.inr ⟨_, rfl⟩
      · exact Or.inl ⟨_, rfl⟩

theorem getSession_result_shape (now : Int) (st : AuthState) :
    (∃ d, (getSession now st).1 = Envelope.ok d) ∨
      (∃ m, (getSession now st).1 = Envelope.fail m) := by
  simp only [getSession]
  split
  · exact Or.inr ⟨_, rfl⟩
  · split
    · exact Or.inr ⟨_, rfl⟩
    · split
      · exact Or.inr ⟨_, rfl⟩
      · exact Or.inl ⟨_, rfl⟩

/-! ## Claims -/

/-- C8: `signOut` with no token present (no cookie) fails with the
NoActiveSession error ("Session id is not valid") and performs no store
operation at all: the returned state — user store, session store, cookie and
query log — is exactly the input state, so no query was issued. -/
theorem signout_no_token_frame (store : Store) (log : List DbOp) :
    signOut ⟨store, none, log⟩ =
      (Envelope.fail "Session id is not valid", ⟨store, none, log⟩) := rfl

/-- C10: expiry uses a strict comparison (`expiresAt < now`), so a session
whose `expiresAt` equals the current instant is still active: `getSession`
succeeds with it, the session row is not deleted and the cookie is not
cleared. -/
theorem expiry_boundary_still_active (st : AuthState) (now : Int) (sid : Nat)
    (s : Session) (u : User)
    (hc : st.cookie = some sid)
    (hs : findSessionById st.store.sessions sid = some s)
    (hu : findUserById st.store.users s.userId = some u)
    (heq : s.expiresAt = now) :
    (getSession now st).1 = Envelope.ok ⟨pickUser u, s⟩ ∧
    ((getSession now st).2).store = st.store ∧
    ((getSession now st).2).cookie = st.cookie := by
  have hj : joinSessionUser st.store sid = some (s, u) := by
    simp [joinSessionUser, hs, hu]
  have hnl : ¬ s.expiresAt < now := by rw [heq]; exact lt_irrefl now
  simp [getSession, hc, hj, hnl]

/-- C10 witness: with `sAlice.expiresAt = 100` and current time exactly 100,
`getSession` succeeds and leaves store and cookie untouched. -/
theorem expiry_boundary_still_active_witness :
    stAlice.cookie = some 1 ∧
    findSessionById stAlice.store.sessions 1 = some sAlice ∧
    findUserById stAlice.store.users sAlice.userId = some uAlice ∧
    sAlice.expiresAt = 100 ∧
    ((getSession 100 stAlice).1 = Envelope.ok ⟨pickUser uAlice, sAlice⟩ ∧
      ((getSession 100 stAlice).2).store = stAlice.store ∧
      ((getSession 100 stAlice).2).cookie = stAlice.cookie) :=
  ⟨rfl, by decide, by decide, rfl,
    expiry_boundary_still_active stAlice 100 1 sAlice uAlice rfl (by decide)
      (by decide) rfl⟩

/-- C1: an expired session (strictly past `expiresAt`), touched by
`getSession`, yields the SessionExpired failure, its row is deleted from the
session store (users untouched), the token cookie is cleared, and every
subsequent `getSession` on the resulting state fails with the NoActiveSession
error ("Session id is not exist in cookie") while changing nothing — the
transition is one-way and self-cleaning. -/
theorem expired_session_cleanup (st : AuthState) (now : Int) (sid : Nat)
    (s : Session) (u : User)
    (hc : st.cookie = some sid)
    (hs : findSessionById st.store.sessions sid = some s)
    (hu : findUserById st.store.users s.userId = some u)
    (hexp : s.expiresAt < now) :
    (getSession now st).1 = Envelope.fail "Session is expired" ∧
    ((getSession now st).2).cookie = none ∧
    findSessionById ((getSession now st).2).store.sessions sid = none ∧
    ((getSession now st).2).store.users = st.store.users ∧
    ∀ now2 : Int,
      getSession now2 (getSession now st).2 =
        (Envelope.fail "Session id is not exist in cookie",
          (getSession now st).2) := by
  have hj : joinSessionUser st.store sid = some (s, u) := by
    simp [joinSessionUser, hs, hu]
  simp [getSession, hc, hj, hexp, findSessionById_filter_self]

/-- C1 witness: `stAlice`'s session expires at 100; at time 101 `getSession`
deletes it, clears the cookie, fails with "Session is expired", and a second
`getSession` fails with "Session id is not exist in cookie". -/
theorem expired_session_cleanup_witness :
    stAlice.cookie = some 1 ∧
    findSessionById stAlice.store.sessions 1 = some sAlice ∧
    findUserById stAlice.store.users sAlice.userId = some uAlice ∧
    sAlice.expiresAt < 101 ∧
    ((getSession 101 stAlice).1 = Envelope.fail "Session is expired" ∧
      ((getSession 101 stAlice).2).cookie = none ∧
      findSessionById ((getSession 101 stAlice).2).store.sessions 1 = none ∧
      ((getSession 101 stAlice).2).store.users = stAlice.store.users ∧
      ∀ now2 : Int,
        getSession now2 (getSession 101 stAlice).2 =
          (Envelope.fail "Session id is not exist in cookie",
            (getSession 101 stAlice).2)) :=
  ⟨rfl, by decide, by decide, by decide,
    expired_session_cleanup stAlice 101 1 sAlice uAlice rfl (by decide)
      (by decide) (by decide)⟩

/-- C2: if an email is not yet present, a first `signUp` with it succeeds and
leaves exactly one user row with that email; a second `signUp` with the same
email fails with the DuplicateUser error ("User already exists") and leaves
the store and the cookie of the first call's state unchanged — no new user
row, session row or token is created by the failing call. -/
theorem duplicate_signup_rejected (st : AuthState) (now1 now2 : Int)
    (p : SignUpParams)
    (hfresh : findUserByEmail st.store.users p.email = none) :
    (signUp now1 p st).1.error = none ∧
    countUsersWithEmail ((signUp now1 p st).2).store.users p.email = 1 ∧
    (signUp now2 p (signUp now1 p st).2).1 =
      Envelope.fail "User already exists" ∧
    ((signUp now2 p (signUp now1 p st).2).2).store =
      ((signUp now1 p st).2).store ∧
    ((signUp now2 p (signUp now1 p st).2).2).cookie =
      ((signUp now1 p st).2).cookie := by
  have hnil := filter_email_nil st.store.users p.email hfresh
  have hdup : ∀ cu : User, cu.email = p.email →
      findUserByEmail (st.store.users ++ [cu]) p.email = some cu := by
    intro cu hcu
    rw [findUserByEmail, List.find?_append]
    rw [findUserByEmail] at hfresh
    simp [hfresh, List.find?_cons, hcu]
  have hdup2 := hdup
    ⟨st.store.nextId, p.name, p.email, hashPassword p.password, now1, now1⟩ rfl
  simp [signUp, hfresh, hdup2, countUsersWithEmail, List.filter_append,
    hnil, Envelope.ok, Envelope.fail]

/-- C2 witness: on an empty store, registering "a@x.com" succeeds and leaves
one matching user row; registering it again fails with "User already exists"
and changes neither store nor cookie. -/
theorem duplicate_signup_rejected_witness :
    findUserByEmail (AuthState.mk ⟨[], [], 0⟩ none []).store.users "a@x.com" =
      none ∧
    ((signUp 0 ⟨none, "a@x.com", "pw"⟩ ⟨⟨[], [], 0⟩, none, []⟩).1.error = none ∧
      countUsersWithEmail
        ((signUp 0 ⟨none, "a@x.com", "pw"⟩
          ⟨⟨[], [], 0⟩, none, []⟩).2).store.users "a@x.com" = 1 ∧
      (signUp 7 ⟨none, "a@x.com", "pw"⟩
          (signUp 0 ⟨none, "a@x.com", "pw"⟩ ⟨⟨[], [], 0⟩, none, []⟩).2).1 =
        Envelope.fail "User already exists" ∧
      ((signUp 7 ⟨none, "a@x.com", "pw"⟩
          (signUp 0 ⟨none, "a@x.com", "pw"⟩
            ⟨⟨[], [], 0⟩, none, []⟩).2).2).store =
        ((signUp 0 ⟨none, "a@x.com", "pw"⟩ ⟨⟨[], [], 0⟩, none, []⟩).2).store ∧
      ((signUp 7 ⟨none, "a@x.com", "pw"⟩
          (signUp 0 ⟨none, "a@x.com", "pw"⟩
            ⟨⟨[], [], 0⟩, none, []⟩).2).2).cookie =
        ((signUp 0 ⟨none, "a@x.com", "pw"⟩
          ⟨⟨[], [], 0⟩, none, []⟩).2).cookie) :=
  ⟨rfl, duplicate_signup_rejected ⟨⟨[], [], 0⟩, none, []⟩ 0 7
    ⟨none, "a@x.com", "pw"⟩ rfl⟩

/-- C3 counterexample: on a concrete state holding only "a@x.com", `signIn`
with an unknown email fails with "Email is not valid" while `signIn` with the
right email but a wrong password fails with "Password is not valid" — the two
failure outcomes differ, so the caller can tell which cause occurred; the
claim that both fail with one indistinguishable InvalidCredentials outcome is
false on the code. -/
theorem signin_failures_distinguishable_cex :
    (signIn 0 ⟨"b@x.com", "pw"⟩ stNoSession).1 =
      Envelope.fail "Email is not valid" ∧
    (signIn 0 ⟨"a@x.com", "wrong"⟩ stNoSession).1 =
      Envelope.fail "Password is not valid" ∧
    (signIn 0 ⟨"b@x.com", "pw"⟩ stNoSession).1 ≠
      (signIn 0 ⟨"a@x.com", "wrong"⟩ stNoSession).1 := by
  refine ⟨?_, ?_, ?_⟩ <;> decide

/-- C3 amended: `signIn` fails both when no user holds the email and when the
password does not verify, but with two distinct error messages — "Email is not
valid" versus "Password is not valid" — so the two causes are distinguishable
by the caller. -/
theorem signin_distinct_failure_messages (st : AuthState) (now : Int)
    (p : SignInParams) :
    (findUserByEmail st.store.users p.email = none →
      (signIn now p st).1 = Envelope.fail "Email is not valid") ∧
    (∀ u, findUserByEmail st.store.users p.email = some u →
      verifyPassword p.password u.password = false →
      (signIn now p st).1 = Envelope.fail "Password is not valid") := by
  constructor
  · intro h
    simp [signIn, h]
  · intro u h hv
    simp [signIn, h, hv]

/-- C3 amended witness: both failure branches realized on `stNoSession`. -/
theorem signin_distinct_failure_messages_witness :
    (findUserByEmail stNoSession.store.users "b@x.com" = none ∧
      (signIn 0 ⟨"b@x.com", "pw"⟩ stNoSession).1 =
        Envelope.fail "Email is not valid") ∧
    (findUserByEmail stNoSession.store.users "a@x.com" = some uAlice ∧
      verifyPassword "wrong" uAlice.password = false ∧
      (signIn 0 ⟨"a@x.com", "wrong"⟩ stNoSession).1 =
        Envelope.fail "Password is not valid") :=
  ⟨⟨by decide,
      (signin_distinct_failure_messages stNoSession 0 ⟨"b@x.com", "pw"⟩).1
        (by decide)⟩,
    ⟨by decide, by decide,
      (signin_distinct_failure_messages stNoSession 0 ⟨"a@x.com", "wrong"⟩).2
        uAlice (by decide) (by decide)⟩⟩

/-- C4: a successful `signIn` appends a brand-new session row (fresh
identifier) and neither deletes nor modifies any existing row; two sequential
successful `signIn` calls with the same credentials yield two rows with
distinct identifiers, both still in the store, and `getSession` with either
identifier in the cookie succeeds as long as that session is not expired. -/
theorem signin_two_fresh_sessions (st : AuthState) (now1 now2 : Int)
    (p : SignInParams) (u : User) (s1 s2 : Session)
    (hu : findUserByEmail st.store.users p.email = some u)
    (hv : verifyPassword p.password u.password = true)
    (hid : findUserById st.store.users u.id = some u)
    (hbound : ∀ x ∈ st.store.sessions, x.id < st.store.nextId)
    (hs1 : s1 = ⟨st.store.nextId, now1 + sessionTtlMs, now1, now1, u.id⟩)
    (hs2 : s2 = ⟨st.store.nextId + 1, now2 + sessionTtlMs, now2, now2, u.id⟩) :
    (signIn now1 p st).1 = Envelope.ok ⟨pickUser u⟩ ∧
    (signIn now2 p (signIn now1 p st).2).1 = Envelope.ok ⟨pickUser u⟩ ∧
    ((signIn now1 p st).2).store.users = st.store.users ∧
    ((signIn now1 p st).2).store.sessions = st.store.sessions ++ [s1] ∧
    ((signIn now2 p (signIn now1 p st).2).2).store.users = st.store.users ∧
    ((signIn now2 p (signIn now1 p st).2).2).store.sessions =
      st.store.sessions ++ [s1] ++ [s2] ∧
    s1.id ≠ s2.id ∧
    (∀ t : Int, ¬ s1.expiresAt < t →
      (getSession t ⟨((signIn now2 p (signIn now1 p st).2).2).store,
          some s1.id, []⟩).1 = Envelope.ok ⟨pickUser u, s1⟩) ∧
    (∀ t : Int, ¬ s2.expiresAt < t →
      (getSession t ⟨((signIn now2 p (signIn now1 p st).2).2).store,
          some s2.id, []⟩).1 = Envelope.ok ⟨pickUser u, s2⟩) := by
  subst hs1
  subst hs2
  have hnone1 : findSessionById st.store.sessions st.store.nextId = none :=
    findSessionById_of_bound _ _ hbound
  have hnone2 :
      findSessionById st.store.sessions (st.store.nextId + 1) = none :=
    findSessionById_of_bound _ _
      (fun x hx => Nat.lt_trans (hbound x hx) (Nat.lt_succ_self _))
  have hfind1 : findSessionById
      (st.store.sessions ++
        [⟨st.store.nextId, now1 + sessionTtlMs, now1, now1, u.id⟩,
          ⟨st.store.nextId + 1, now2 + sessionTtlMs, now2, now2, u.id⟩])
      st.store.nextId =
      some ⟨st.store.nextId, now1 + sessionTtlMs, now1, now1, u.id⟩ := by
    rw [findSessionById, List.find?_append]
    rw [findSessionById] at hnone1
    simp [hnone1, List.find?_cons]
  have hfind2 : findSessionById
      (st.store.sessions ++
        [⟨st.store.nextId, now1 + sessionTtlMs, now1, now1, u.id⟩,
          ⟨st.store.nextId + 1, now2 + sessionTtlMs, now2, now2, u.id⟩])
      (st.store.nextId + 1) =
      some ⟨st.store.nextId + 1, now2 + sessionTtlMs, now2, now2, u.id⟩ := by
    rw [findSessionById, List.find?_append]
    rw [findSessionById] at hnone2
    simp [hnone2, List.find?_cons]
  refine ⟨?_, ?_, ?_, ?_, ?_, ?_, ?_, ?_, ?_⟩
  · simp [signIn, hu, hv]
  · simp [signIn, hu, hv]
  · simp [signIn, hu, hv]
  · simp [signIn, hu, hv]
  · simp [signIn, hu, hv]
  · simp [signIn, hu, hv]
  · simp
  · intro t ht
    simp [signIn, hu, hv, getSession, joinSessionUser, hfind1, hid, ht]
  · intro t ht
    simp [signIn, hu, hv, getSession, joinSessionUser, hfind2, hid, ht]

/-- C4 witness: signing "a@x.com" in twice (times 0 and 7) on `stNoSession`
succeeds twice and the two created sessions carry distinct identifiers. -/
theorem signin_two_fresh_sessions_witness :
    findUserByEmail stNoSession.store.users "a@x.com" = some uAlice ∧
    verifyPassword "pw" uAlice.password = true ∧
    findUserById stNoSession.store.users uAlice.id = some uAlice ∧
    (∀ x ∈ stNoSession.store.sessions, x.id < stNoSession.store.nextId) ∧
    (signIn 0 ⟨"a@x.com", "pw"⟩ stNoSession).1 =
      Envelope.ok ⟨pickUser uAlice⟩ ∧
    (signIn 7 ⟨"a@x.com", "pw"⟩
        (signIn 0 ⟨"a@x.com", "pw"⟩ stNoSession).2).1 =
      Envelope.ok ⟨pickUser uAlice⟩ ∧
    (5 : Nat) ≠ 6 := by
  have h := signin_two_fresh_sessions stNoSession 0 7 ⟨"a@x.com", "pw"⟩ uAlice
    ⟨5, 0 + sessionTtlMs, 0, 0, 0⟩ ⟨6, 7 + sessionTtlMs, 7, 7, 0⟩
    (by decide) (by decide) (by decide) (by simp [stNoSession]) rfl (by decide)
  exact ⟨by decide, by decide, by decide, by simp [stNoSession], h.1, h.2.1,
    h.2.2.2.2.2.2.1⟩

/-- C5: whatever `getSession` does, the adapter's `handleGetSession` responds
with status 200, its state is `getSession`'s state, its `session` body field is
exactly `getSession`'s data (hence `null` on every failure) — a failure is
never surfaced as an error status or error body. -/
theorem getsession_failures_downgraded (now : Int) (st : AuthState) :
    (handleGetSession now st).1.status = 200 ∧
    (handleGetSession now st).2 = (getSession now st).2 ∧
    (handleGetSession now st).1.session = (getSession now st).1.data ∧
    ((getSession now st).1.error.isSome = true →
      (handleGetSession now st).1 = ⟨200, none⟩) := by
  rcases getSession_result_shape now st with ⟨d, h⟩ | ⟨m, h⟩
  · simp [handleGetSession, h, Envelope.ok]
  · simp [handleGetSession, h, Envelope.fail]

/-- C5 witness: on a state with no cookie, `getSession` fails and the adapter
responds status 200 with a null session. -/
theorem getsession_failures_downgraded_witness :
    (getSession 0 stNoSession).1.error.isSome = true ∧
    (handleGetSession 0 stNoSession).1 = ⟨200, none⟩ :=
  ⟨by decide, (getsession_failures_downgraded 0 stNoSession).2.2.2 (by decide)⟩

/-- C7: every Authority operation, on every input and state, returns a
two-armed envelope: exactly one of the success payload (`data`) and the
failure description (`error`) is populated — never both, never neither. (The
four operations are total functions of the embedding: every internal fault is a
value of the failure arm, none escapes.) -/
theorem result_envelope_two_armed (st : AuthState) (now : Int)
    (p : SignUpParams) (q : SignInParams) :
    exclusiveEnvelope (signUp now p st).1 ∧
    exclusiveEnvelope (signIn now q st).1 ∧
    exclusiveEnvelope (signOut st).1 ∧
    exclusiveEnvelope (getSession now st).1 := by
  refine ⟨?_, ?_, ?_, ?_⟩
  · rcases signUp_result_shape now p st with ⟨d, h⟩ | ⟨m, h⟩ <;>
      simp [exclusiveEnvelope, h, Envelope.ok, Envelope.fail]
  · rcases signIn_result_shape now q st with ⟨d, h⟩ | ⟨m, h⟩ <;>
      simp [exclusiveEnvelope, h, Envelope.ok, Envelope.fail]
  · rcases signOut_result_shape st with ⟨d, h⟩ | ⟨m, h⟩ <;>
      simp [exclusiveEnvelope, h, Envelope.ok, Envelope.fail]
  · rcases getSession_result_shape now st with ⟨d, h⟩ | ⟨m, h⟩ <;>
      simp [exclusiveEnvelope, h, Envelope.ok, Envelope.fail]

theorem joinSessionUser_inv (store : Store) (sid : Nat) (s : Session)
    (u : User) (h : joinSessionUser store sid = some (s, u)) :
    findSessionById store.sessions sid = some s ∧
      findUserById store.users s.userId = some u := by
  unfold joinSessionUser at h
  split at h
  · cases h
  · rename_i s' h1
    split at h
    · cases h
    · rename_i u' h2
      simp only [Option.some.injEq, Prod.mk.injEq] at h
      obtain ⟨hs', hu'⟩ := h
      subst hs'
      subst hu'
      exact ⟨h1, h2⟩

/-- C9: every success payload of every Authority operation carries the user
only as the public projection `pickUser` — id, name, email — of a stored user
row (for `signUp`, of the row the call itself inserted). `PickedUser` has no
password field, so the stored password hash appears in no success payload. -/
theorem success_payloads_public_projection (st : AuthState) (now : Int)
    (p : SignUpParams) (q : SignInParams) :
    (∀ d, (signUp now p st).1.data = some d →
      ∃ u ∈ ((signUp now p st).2).store.users, d.user = pickUser u) ∧
    (∀ d, (signIn now q st).1.data = some d →
      ∃ u ∈ st.store.users, d.user = pickUser u) ∧
    (∀ d, (signOut st).1.data = some d →
      ∃ u ∈ st.store.users, d.user = pickUser u) ∧
    (∀ d, (getSession now st).1.data = some d →
      ∃ u ∈ st.store.users, d.user = pickUser u) := by
  refine ⟨?_, ?_, ?_, ?_⟩
  · intro d hd
    rcases hfind : findUserByEmail st.store.users p.email with _ | u0
    · simp only [signUp, hfind, Envelope.ok, Option.some.injEq] at hd ⊢
      subst hd
      exact ⟨_, by simp, rfl⟩
    · simp [signUp, hfind, Envelope.fail] at hd
  · intro d hd
    rcases hfind : findUserByEmail st.store.users q.email with _ | u0
    · simp [signIn, hfind, Envelope.fail] at hd
    · by_cases hv : verifyPassword q.password u0.password = true
      · simp only [signIn, hfind, hv, if_true, Envelope.ok,
          Option.some.injEq] at hd
        subst hd
        rw [findUserByEmail] at hfind
        exact ⟨u0, List.mem_of_find?_eq_some hfind, rfl⟩
      · simp [signIn, hfind, hv, Envelope.fail] at hd
  · intro d hd
    rcases hcook : st.cookie with _ | sid
    · simp [signOut, hcook, Envelope.fail] at hd
    · rcases hjoin : joinSessionUser st.store sid with _ | ⟨s, u0⟩
      · simp [signOut, hcook, hjoin, Envelope.fail] at hd
      · obtain ⟨hs, hu⟩ := joinSessionUser_inv st.store sid s u0 hjoin
        simp only [signOut, hcook, hjoin, hs, Envelope.ok, Envelope.fail,
          Option.some.injEq] at hd
        subst hd
        rw [findUserById] at hu
        exact ⟨u0, List.mem_of_find?_eq_some hu, rfl⟩
  · intro d hd
    rcases hcook : st.cookie with _ | sid
    · simp [getSession, hcook, Envelope.fail] at hd
    · rcases hjoin : joinSessionUser st.store sid with _ | ⟨s, u0⟩
      · simp [getSession, hcook, hjoin, Envelope.fail] at hd
      · by_cases hexp : s.expiresAt < now
        · simp [getSession, hcook, hjoin, hexp, Envelope.fail] at hd
        · simp only [getSession, hcook, hjoin, if_neg hexp, Envelope.ok,
            Option.some.injEq] at hd
          subst hd
          obtain ⟨hs, hu⟩ := joinSessionUser_inv st.store sid s u0 hjoin
          rw [findUserById] at hu
          exact ⟨u0, List.mem_of_find?_eq_some hu, rfl⟩

/-- C9 witness: each operation realized on a concrete success, every payload
equal to the picked projection of a stored user. -/
theorem success_payloads_public_projection_witness :
    ((signUp 0 ⟨none, "b@x.com", "pw2"⟩ stNoSession).1.data =
        some ⟨⟨5, none, "b@x.com"⟩⟩ ∧
      ∃ u ∈ ((signUp 0 ⟨none, "b@x.com", "pw2"⟩ stNoSession).2).store.users,
        (SignActionData.mk ⟨5, none, "b@x.com"⟩).user = pickUser u) ∧
    ((signIn 0 ⟨"a@x.com", "pw"⟩ stNoSession).1.data =
        some ⟨pickUser uAlice⟩ ∧
      ∃ u ∈ stNoSession.store.users,
        (SignActionData.mk (pickUser uAlice)).user = pickUser u) ∧
    ((signOut stAlice).1.data = some ⟨pickUser uAlice⟩ ∧
      ∃ u ∈ stAlice.store.users,
        (SignActionData.mk (pickUser uAlice)).user = pickUser u) ∧
    ((getSession 0 stAlice).1.data = some ⟨pickUser uAlice, sAlice⟩ ∧
      ∃ u ∈ stAlice.store.users,
        (GetSessionData.mk (pickUser uAlice) sAlice).user = pickUser u) :=
  ⟨⟨by decide,
      (success_payloads_public_projection stNoSession 0
        ⟨none, "b@x.com", "pw2"⟩ ⟨"a@x.com", "pw"⟩).1 _ (by decide)⟩,
    ⟨by decide,
      (success_payloads_public_projection stNoSession 0
        ⟨none, "b@x.com", "pw2"⟩ ⟨"a@x.com", "pw"⟩).2.1 _ (by decide)⟩,
    ⟨by decide,
      (success_payloads_public_projection stAlice 0
        ⟨none, "b@x.com", "pw2"⟩ ⟨"a@x.com", "pw"⟩).2.2.1 _ (by decide)⟩,
    ⟨by decide,
      (success_payloads_public_projection stAlice 0
        ⟨none, "b@x.com", "pw2"⟩ ⟨"a@x.com", "pw"⟩).2.2.2 _ (by decide)⟩⟩

/-- C6 counterexample: `stAlice` and `stAliceLate` hold sessions agreeing on
identifier and expiration (and identical users and cookie), differing only in
the session's creation timestamp; yet the bodies `handleGetSession` serializes
to the client differ — so the serialized data exposes session fields beyond
the identifier and the expiration, contradicting the claim. -/
theorem session_overexposed_cex :
    sAlice.id = sAliceLate.id ∧
    sAlice.expiresAt = sAliceLate.expiresAt ∧
    stAlice.store.users = stAliceLate.store.users ∧
    stAlice.cookie = stAliceLate.cookie ∧
    (getSession 0 stAlice).1.error = none ∧
    (getSession 0 stAliceLate).1.error = none ∧
    (handleGetSession 0 stAlice).1.session ≠
      (handleGetSession 0 stAliceLate).1.session := by
  refine ⟨rfl, rfl, rfl, rfl, ?_, ?_, ?_⟩ <;> decide

/-- C6 amended: on every successful `getSession`, the client-serialized data
contains the FULL session row — identifier, expiration, creation timestamp,
update timestamp and owning user id — alongside the picked user; only the
user's password hash is withheld, not the session's remaining fields. -/
theorem getsession_serializes_full_row (st : AuthState) (now : Int)
    (sid : Nat) (s : Session) (u : User)
    (hc : st.cookie = some sid)
    (hj : joinSessionUser st.store sid = some (s, u))
    (hexp : ¬ s.expiresAt < now) :
    (getSession now st).1.data = some ⟨pickUser u, s⟩ ∧
    (handleGetSession now st).1.session = some ⟨pickUser u, s⟩ := by
  have h1 : (getSession now st).1 = Envelope.ok ⟨pickUser u, s⟩ := by
    simp [getSession, hc, hj, hexp]
  exact ⟨by rw [h1]; rfl, by simp [handleGetSession, h1, Envelope.ok]⟩

/-- C6 amended witness: the serialized session for `stAlice` is the whole row
`sAlice`, creation/update timestamps and owning user id included. -/
theorem getsession_serializes_full_row_witness :
    stAlice.cookie = some 1 ∧
    joinSessionUser stAlice.store 1 = some (sAlice, uAlice) ∧
    ¬ sAlice.expiresAt < (0 : Int) ∧
    ((getSession 0 stAlice).1.data = some ⟨pickUser uAlice, sAlice⟩ ∧
      (handleGetSession 0 stAlice).1.session =
        some ⟨pickUser uAlice, sAlice⟩) :=
  ⟨rfl, by decide, by decide,
    getsession_serializes_full_row stAlice 0 1 sAlice uAlice rfl (by decide)
      (by decide)⟩
